import Mathlib

/-!
Verification of the Adaptify-AI NLP engine (fastapi_service/nlp_engine.py).

This file gives a shallow embedding of the RAG orchestration pipeline:
the JSON response parser, the deterministic mock fallback generator, the
embedding-model lazy singleton, vector-store construction, the four
orchestrator flows (process_document, ask_document, summarize_text,
extract_key_points), and the concurrent per-page fan-out with
order-preserving reassembly.

Modelling conventions:
- Python dicts are association lists with insertion-order and unique keys
  (`Dict`); `dictSet` models item assignment (update in place or append),
  `dictGet` models key lookup, `dictSpread` models `{**base, **extra}`
  style spreading.
- JSON values are modelled by the inductive `Json`; floats are kept as
  their lexeme (`Json.fnum`) since the code never computes with them.
- Library calls (LangChain splitter, FAISS, HuggingFace embeddings, the
  Perplexity remote call) are oracles in an explicit environment `Env`;
  each oracle returns `Except PyErr _` so that the code's try/except
  structure is modelled faithfully.
- Python string functions (`strip`, `split`, `lower`, slicing) are
  modelled on their ASCII fragment, which is the fragment the code
  exercises; `re` patterns used by the code are modelled as the
  deterministic scanners they denote on that fragment.
-/

/-- JSON values as returned by `json.loads`.  Numbers without fraction or
exponent are integers (`num`); floats keep their lexeme (`fnum`) because the
engine never computes with them. -/
inductive Json where
  | null
  | bool (b : Bool)
  | num (n : Int)
  | fnum (lexeme : String)
  | str (s : String)
  | arr (elems : List Json)
  | obj (entries : List (String × Json))
  deriving Repr

/-- A Python dict: insertion-ordered association list with unique keys. -/
abbrev Dict := List (String × Json)

/-- Key lookup, `d[key]` / `d.get(key)`. -/
def dictGet : Dict → String → Option Json
  | [], _ => none
  | (k, v) :: rest, key => if k = key then some v else dictGet rest key

/-- Item assignment `d[key] = val`: update in place if the key exists,
append otherwise (CPython dict semantics). -/
def dictSet : Dict → String → Json → Dict
  | [], key, val => [(key, val)]
  | (k, v) :: rest, key, val =>
    if k = key then (k, val) :: rest else (k, v) :: dictSet rest key val

/-- Dict spreading: `{**base, **extra}` builds on `base` and assigns every
entry of `extra` in order. -/
def dictSpread (base extra : Dict) : Dict :=
  extra.foldl (fun d kv => dictSet d kv.1 kv.2) base

/-- Membership test `key in d`. -/
def hasKey (d : Dict) (k : String) : Bool := (dictGet d k).isSome

/-- Brace and backtick characters, named to keep them out of literals. -/
def lbraceChar : Char := Char.ofNat 123

/-- Closing brace character. -/
def rbraceChar : Char := Char.ofNat 125

/-- Backtick character (markdown fences). -/
def backtickChar : Char := Char.ofNat 96

/-- Whitespace recognised by Python `str.strip` / regex `\s` (ASCII
fragment): space, tab, newline, carriage return, vertical tab, form feed. -/
def isPyWs (c : Char) : Bool :=
  c = ' ' || c = '\t' || c = '\n' || c = '\r' || c = '\x0b' || c = '\x0c'

/-- Strip leading and trailing whitespace from a character list. -/
def pyStripList (cs : List Char) : List Char :=
  ((cs.dropWhile isPyWs).reverse.dropWhile isPyWs).reverse

/-- Python `s.strip()`. -/
def pyStrip (s : String) : String := String.mk (pyStripList s.data)

/-- Python slicing `s[:n]` (code-point based). -/
def pyTake (s : String) (n : Nat) : String := String.mk (s.data.take n)

/-- Python slicing `s[n:]`. -/
def pyDrop (s : String) (n : Nat) : String := String.mk (s.data.drop n)

/-- Helper for `str.split()` with no argument: accumulate maximal
non-whitespace runs. -/
def pySplitWsAux : List Char → List Char → List String
  | [], cur => if cur.isEmpty then [] else [String.mk cur.reverse]
  | c :: rest, cur =>
    if isPyWs c then
      if cur.isEmpty then pySplitWsAux rest []
      else String.mk cur.reverse :: pySplitWsAux rest []
    else pySplitWsAux rest (c :: cur)

/-- Python `s.split()`: whitespace-separated words, no empties. -/
def pySplitWs (s : String) : List String := pySplitWsAux s.data []

/-- Helper for `str.split(sep)` with a single-character separator. -/
def splitCharAux (sep : Char) : List Char → List Char → List String
  | [], cur => [String.mk cur.reverse]
  | c :: rest, cur =>
    if c = sep then String.mk cur.reverse :: splitCharAux sep rest []
    else splitCharAux sep rest (c :: cur)

/-- Python `s.split(c)` for a one-character separator. -/
def splitChar (sep : Char) (s : String) : List String := splitCharAux sep s.data []

/-- Helper for `s.split("\n\n")`: scan for double newlines. -/
def splitNl2Aux : List Char → List Char → List String
  | [], cur => [String.mk cur.reverse]
  | '\n' :: '\n' :: rest, cur => String.mk cur.reverse :: splitNl2Aux rest []
  | c :: rest, cur => splitNl2Aux rest (c :: cur)

/-- Python `s.split("\n\n")` (paragraph split used by the chunker and the
page segmenter). -/
def splitNl2 (s : String) : List String := splitNl2Aux s.data []

/-- Sentence separator class of `re.split(r'[.!?]+', text)`. -/
def isPunctSep (c : Char) : Bool := c = '.' || c = '!' || c = '?'

/-- Helper for `re.split(r'[.!?]+', text)`: split on maximal runs of
sentence punctuation. -/
def splitPunctAux : List Char → List Char → List String
  | [], cur => [String.mk cur.reverse]
  | c :: rest, cur =>
    if isPunctSep c then
      String.mk cur.reverse :: splitPunctAux (rest.dropWhile isPunctSep) []
    else splitPunctAux rest (c :: cur)
  termination_by cs _ => cs.length
  decreasing_by
    · simp only [List.length_cons]
      have := (List.dropWhile_sublist (l := rest) isPunctSep).length_le
      omega
    · simp [List.length_cons]

/-- Python `re.split(r'[.!?]+', s)`. -/
def splitPunct (s : String) : List String := splitPunctAux s.data []

/-- ASCII lowercase map (the fragment of `str.lower` the code exercises:
the audience table keys are ASCII). -/
def asciiLower (c : Char) : Char :=
  if 65 ≤ c.toNat ∧ c.toNat ≤ 90 then Char.ofNat (c.toNat + 32) else c

/-- ASCII uppercase map (fragment of `str.upper`). -/
def asciiUpper (c : Char) : Char :=
  if 97 ≤ c.toNat ∧ c.toNat ≤ 122 then Char.ofNat (c.toNat - 32) else c

/-- Python `s.lower()` (ASCII fragment). -/
def pyLower (s : String) : String := String.mk (s.data.map asciiLower)

/-- Python `s.capitalize()`: first character upper-cased, the rest
lower-cased (ASCII fragment). -/
def pyCapitalize (s : String) : String :=
  match s.data with
  | [] => ""
  | c :: rest => String.mk (asciiUpper c :: rest.map asciiLower)

/-- Join a list of strings with a separator (`sep.join(parts)`). -/
def strJoin (sep : String) : List String → String
  | [] => ""
  | [x] => x
  | x :: rest => x ++ sep ++ strJoin sep rest

/-- JSON whitespace accepted by `json.loads` between tokens. -/
def isJsonWs (c : Char) : Bool := c = ' ' || c = '\t' || c = '\n' || c = '\r'

/-- Skip JSON whitespace. -/
def skipJsonWs (cs : List Char) : List Char := cs.dropWhile isJsonWs

/-- Value of a hexadecimal digit. -/
def hexVal (c : Char) : Option Nat :=
  if 48 ≤ c.toNat ∧ c.toNat ≤ 57 then some (c.toNat - 48)
  else if 97 ≤ c.toNat ∧ c.toNat ≤ 102 then some (c.toNat - 87)
  else if 65 ≤ c.toNat ∧ c.toNat ≤ 70 then some (c.toNat - 55)
  else none

/-- Parse the body of a JSON string (after the opening quote), handling the
escape sequences `json.loads` accepts; raw control characters are rejected
as in strict mode.  Surrogate-pair combination for astral characters is not
modelled (the engine never exercises it). -/
def parseJStrAux : List Char → List Char → Option (String × List Char)
  | [], _ => none
  | c :: rest, acc =>
    if c = '"' then some (String.mk acc.reverse, rest)
    else if c = '\\' then
      match rest with
      | [] => none
      | e :: rest2 =>
        if e = '"' then parseJStrAux rest2 ('"' :: acc)
        else if e = '\\' then parseJStrAux rest2 ('\\' :: acc)
        else if e = '/' then parseJStrAux rest2 ('/' :: acc)
        else if e = 'b' then parseJStrAux rest2 (Char.ofNat 8 :: acc)
        else if e = 'f' then parseJStrAux rest2 (Char.ofNat 12 :: acc)
        else if e = 'n' then parseJStrAux rest2 ('\n' :: acc)
        else if e = 'r' then parseJStrAux rest2 ('\r' :: acc)
        else if e = 't' then parseJStrAux rest2 ('\t' :: acc)
        else if e = 'u' then
          match rest2 with
          | h1 :: h2 :: h3 :: h4 :: rest3 =>
            match hexVal h1, hexVal h2, hexVal h3, hexVal h4 with
            | some a, some b, some c2, some d =>
              parseJStrAux rest3 (Char.ofNat (a * 4096 + b * 256 + c2 * 16 + d) :: acc)
            | _, _, _, _ => none
          | _ => none
        else none
    else if c.toNat < 32 then none
    else parseJStrAux rest (c :: acc)

/-- Digits of a decimal literal to a natural number. -/
def digitsToNat (ds : List Char) : Nat :=
  ds.foldl (fun n c => n * 10 + (c.toNat - 48)) 0

/-- Parse the optional exponent part of a JSON number; returns whether an
exponent was present and the remaining input. -/
def parseJExp (cs : List Char) : Option (Bool × List Char) :=
  match cs with
  | c :: r =>
    if c = 'e' || c = 'E' then
      let r1 := match r with
        | s :: rr => if s = '+' || s = '-' then rr else r
        | [] => r
      let ds := r1.takeWhile Char.isDigit
      if ds.isEmpty then none else some (true, r1.dropWhile Char.isDigit)
    else some (false, cs)
  | [] => some (false, cs)

/-- Parse a JSON number following the strict grammar (optional minus, no
leading zeros, optional fraction and exponent).  A number with fraction or
exponent becomes `Json.fnum` carrying its lexeme. -/
def parseJNum (cs : List Char) : Option (Json × List Char) :=
  let startLen := cs.length
  let (neg, cs1) := match cs with
    | '-' :: rest => (true, rest)
    | _ => (false, cs)
  match cs1.head? with
  | none => none
  | some c =>
    if ¬ c.isDigit then none
    else
      let intDigits := cs1.takeWhile Char.isDigit
      let rest1 := cs1.dropWhile Char.isDigit
      if intDigits.length > 1 ∧ intDigits.headD '0' = '0' then none
      else
        let fracStep : Option (Bool × List Char) := match rest1 with
          | '.' :: fr =>
            let ds := fr.takeWhile Char.isDigit
            if ds.isEmpty then none else some (true, fr.dropWhile Char.isDigit)
          | _ => some (false, rest1)
        match fracStep with
        | none => none
        | some (hasFrac, rest2) =>
          match parseJExp rest2 with
          | none => none
          | some (hasExp, rest3) =>
            if hasFrac || hasExp then
              some (Json.fnum (String.mk (cs.take (startLen - rest3.length))), rest3)
            else
              let v : Int := Int.ofNat (digitsToNat intDigits)
              some (Json.num (if neg then -v else v), rest3)

/-- Head test used for the `-Infinity` literal. -/
def cs1HeadIsI (cs : List Char) : Bool :=
  match cs with
  | 'I' :: _ => true
  | _ => false

mutual

/-- Parse one JSON value at the head of the input (whitespace already
skipped).  `fuel` bounds recursion depth; `jsonLoads` supplies more fuel
than any input can consume. -/
def parseJVal : Nat → List Char → Option (Json × List Char)
  | 0, _ => none
  | fuel + 1, cs =>
    match cs with
    | [] => none
    | c :: rest =>
      if c = '"' then
        match parseJStrAux rest [] with
        | some (s, r) => some (Json.str s, r)
        | none => none
      else if c = lbraceChar then
        let cs2 := skipJsonWs rest
        match cs2.head? with
        | some c2 =>
          if c2 = rbraceChar then some (Json.obj [], cs2.tail)
          else parseJObjRest fuel cs2 []
        | none => none
      else if c = '[' then
        let cs2 := skipJsonWs rest
        match cs2.head? with
        | some c2 =>
          if c2 = ']' then some (Json.arr [], cs2.tail)
          else parseJArrRest fuel cs2 []
        | none => none
      else if c = 't' then
        match rest with
        | 'r' :: 'u' :: 'e' :: r => some (Json.bool true, r)
        | _ => none
      else if c = 'f' then
        match rest with
        | 'a' :: 'l' :: 's' :: 'e' :: r => some (Json.bool false, r)
        | _ => none
      else if c = 'n' then
        match rest with
        | 'u' :: 'l' :: 'l' :: r => some (Json.null, r)
        | _ => none
      else if c = 'N' then
        match rest with
        | 'a' :: 'N' :: r => some (Json.fnum "NaN", r)
        | _ => none
      else if c = 'I' then
        match rest with
        | 'n' :: 'f' :: 'i' :: 'n' :: 'i' :: 't' :: 'y' :: r =>
          some (Json.fnum "Infinity", r)
        | _ => none
      else if c = '-' ∧ cs1HeadIsI rest then
        match rest with
        | 'I' :: 'n' :: 'f' :: 'i' :: 'n' :: 'i' :: 't' :: 'y' :: r =>
          some (Json.fnum "-Infinity", r)
        | _ => none
      else parseJNum cs

/-- Parse the entries of a JSON object after at least one entry is known to
follow (duplicate keys: last value wins, first position kept, as in
CPython). -/
def parseJObjRest : Nat → List Char → Dict → Option (Json × List Char)
  | 0, _, _ => none
  | fuel + 1, cs, acc =>
    match skipJsonWs cs with
    | '"' :: r =>
      match parseJStrAux r [] with
      | none => none
      | some (k, r2) =>
        match skipJsonWs r2 with
        | ':' :: r3 =>
          match parseJVal fuel (skipJsonWs r3) with
          | none => none
          | some (v, r4) =>
            let acc2 := dictSet acc k v
            match (skipJsonWs r4).head? with
            | some c5 =>
              if c5 = ',' then parseJObjRest fuel (skipJsonWs r4).tail acc2
              else if c5 = rbraceChar then some (Json.obj acc2, (skipJsonWs r4).tail)
              else none
            | none => none
        | _ => none
    | _ => none

/-- Parse the elements of a JSON array after at least one element is known
to follow. -/
def parseJArrRest : Nat → List Char → List Json → Option (Json × List Char)
  | 0, _, _ => none
  | fuel + 1, cs, acc =>
    match parseJVal fuel cs with
    | none => none
    | some (v, r) =>
      match skipJsonWs r with
      | ',' :: r2 => parseJArrRest fuel (skipJsonWs r2) (v :: acc)
      | ']' :: r2 => some (Json.arr (v :: acc).reverse, r2)
      | _ => none

end

/-- Model of `json.loads`: parse one value, require only whitespace after
it; any failure is a `json.JSONDecodeError`. -/
def jsonLoads (s : String) : Except String Json :=
  match parseJVal (s.data.length + 2) (skipJsonWs s.data) with
  | some (v, rest) =>
    if (skipJsonWs rest).isEmpty then Except.ok v
    else Except.error "Extra data"
  | none => Except.error "Expecting value"

/-- Model of `re.sub(r'^```(?:json)?\s*', '', s)`: remove one leading
markdown fence (optionally tagged `json`) and following whitespace.  The
pattern is anchored, so at most one substitution happens. -/
def dropFencePre (s : String) : String :=
  let cs := s.data
  if cs.take 3 = [backtickChar, backtickChar, backtickChar] then
    let rest := cs.drop 3
    let rest2 := if rest.take 4 = ['j', 's', 'o', 'n'] then rest.drop 4 else rest
    String.mk (rest2.dropWhile isPyWs)
  else s

/-- Model of `re.sub(r'\s*```$', '', s)` on input with no trailing
whitespace (the code applies it after `strip`): remove a trailing fence and
the whitespace before it. -/
def dropFencePost (s : String) : String :=
  let cs := s.data
  if 3 ≤ cs.length ∧ cs.drop (cs.length - 3) = [backtickChar, backtickChar, backtickChar] then
    String.mk (((cs.take (cs.length - 3)).reverse.dropWhile isPyWs).reverse)
  else s

/-- Both fence removals of `parse_llm_json` in order. -/
def stripFences (s : String) : String := dropFencePost (dropFencePre s)

/-- Model of `re.search(r'\{[\s\S]*?\}', raw)`: the span from the first
opening brace to the first closing brace after it, if both exist. -/
def firstBraceSpan (raw : String) : Option String :=
  let after := raw.data.dropWhile (fun c => ¬ c = lbraceChar)
  match after with
  | [] => none
  | _ :: rest =>
    if (rest.dropWhile (fun c => ¬ c = rbraceChar)).isEmpty then none
    else some (String.mk (lbraceChar :: (rest.takeWhile (fun c => ¬ c = rbraceChar) ++ [rbraceChar])))

/-- Helper for the regex tail `\s*\n` with greedy backtracking: scan the
whitespace run and remember the last newline seen. -/
def lastNlAux : List Char → Nat → Option Nat → Option Nat
  | [], _, best => best
  | c :: rest, i, best =>
    if ¬ isPyWs c then best
    else lastNlAux rest (i + 1) (if c = '\n' then some i else best)

/-- Length consumed by `\s*\n` at the head of `cs` (the longest
whitespace prefix whose last character is a newline), or `none`. -/
def matchWsNl (cs : List Char) : Option Nat :=
  (lastNlAux cs 0 none).map (· + 1)

/-- Page-break alternative `\n\s*---\s*\n` at the head of `cs`; returns
the matched length. -/
def markerAlt1 (cs : List Char) : Option Nat :=
  match cs with
  | '\n' :: r =>
    let k1 := (r.takeWhile isPyWs).length
    let r2 := r.drop k1
    if r2.take 3 = ['-', '-', '-'] then
      match matchWsNl (r2.drop 3) with
      | some k2 => some (1 + k1 + 3 + k2)
      | none => none
    else none
  | _ => none

/-- Page-break alternative `\n\s*Page\s+\d+\s*\n` (case-insensitive) at the
head of `cs`. -/
def markerAlt3 (cs : List Char) : Option Nat :=
  match cs with
  | '\n' :: r =>
    let k1 := (r.takeWhile isPyWs).length
    let r2 := r.drop k1
    if (r2.take 4).map asciiLower = ['p', 'a', 'g', 'e'] then
      let r3 := r2.drop 4
      let k3 := (r3.takeWhile isPyWs).length
      if k3 = 0 then none
      else
        let r4 := r3.drop k3
        let k4 := (r4.takeWhile Char.isDigit).length
        if k4 = 0 then none
        else
          match matchWsNl (r4.drop k4) with
          | some k5 => some (1 + k1 + 4 + k3 + k4 + k5)
          | none => none
    else none
  | _ => none

/-- One page-break marker at the head of `cs`, trying the regex
alternatives in order (`\n\s*---\s*\n`, then `\f`, then
`\n\s*Page\s+\d+\s*\n`). -/
def markerMatch (cs : List Char) : Option Nat :=
  match markerAlt1 cs with
  | some k => some k
  | none =>
    match cs with
    | c :: _ => if c = '\x0c' then some 1 else markerAlt3 cs
    | [] => none

/-- Scanner for `re.split` on the page-break pattern: leftmost
non-overlapping matches become separators. -/
def splitMarkersAux : Nat → List Char → List Char → List String
  | 0, rest, cur => [String.mk (cur.reverse ++ rest)]
  | _ + 1, [], cur => [String.mk cur.reverse]
  | fuel + 1, c :: rest, cur =>
    match markerMatch (c :: rest) with
    | some len => String.mk cur.reverse :: splitMarkersAux fuel ((c :: rest).drop len) []
    | none => splitMarkersAux fuel rest (c :: cur)

/-- Model of `re.split(r'\n\s*---\s*\n|\f|\n\s*Page\s+\d+\s*\n', text,
flags=re.IGNORECASE)`. -/
def splitMarkers (s : String) : List String :=
  splitMarkersAux (s.data.length + 1) s.data []

/-- Leading-markup class `[#\-*>\d.]` of the mock-title regex. -/
def isMockMark (c : Char) : Bool :=
  c = '#' || c = '-' || c = '*' || c = '>' || c.isDigit || c = '.'

/-- Model of `re.sub(r'^[#\-*>\d.]+\s*', '', title_line)`: strip one
leading run of markup characters and the whitespace after it. -/
def mockTitleStrip (line : String) : String :=
  let cs := line.data
  let run := cs.takeWhile isMockMark
  if run.isEmpty then line
  else String.mk ((cs.drop run.length).dropWhile isPyWs)

/-- Error payload of a raised Python exception (its message). -/
abbrev PyErr := String

/-- Opaque handle standing for an in-memory FAISS vector store; its query
behaviour lives in the environment oracle. -/
abbrev VS := Unit

/-- Process environment: import availability flags, configuration, and
oracles for every library call the engine wraps in try/except.  An
`Except.error` models the library call raising. -/
structure Env where
  hasLangchain : Bool
  hasFaiss : Bool
  hasEmbLib : Bool
  hasOpenai : Bool
  apiKey : String
  embLoad : Except PyErr Unit
  splitText : String → Except PyErr (List String)
  faissBuild : List String → Except PyErr Unit
  saveLocal : String → Except PyErr Unit
  pathExists : String → Bool
  loadLocal : String → Except PyErr Unit
  search : String → Nat → Except PyErr (List String)
  remote : Nat → String → String → Except PyErr String

/-- State of the lazy embedding-model singleton: the cached model (if
loaded) and whether a load was ever attempted. -/
structure EmbState where
  emb : Option Unit
  attempted : Bool
  deriving Repr, DecidableEq

/-- State at process start: nothing cached, no attempt made. -/
def embInitState : EmbState := { emb := none, attempted := false }

/-- Result of one `get_embeddings()` call: the returned value, the updated
global state, and whether this call actually ran the model constructor
(instrumentation for the at-most-once property, unused by callers). -/
structure EmbCall where
  result : Option Unit
  state : EmbState
  loadAttempted : Bool
  deriving Repr, DecidableEq

/-- Model of `get_embeddings()`: return the cached model; if an attempt
was already made and failed, return None without retrying; otherwise mark
the attempt and try to construct the model once. -/
def get_embeddings (env : Env) (st : EmbState) : EmbCall :=
  match st.emb with
  | some e => { result := some e, state := st, loadAttempted := false }
  | none =>
    if st.attempted then { result := none, state := st, loadAttempted := false }
    else
      let st1 : EmbState := { emb := none, attempted := true }
      if ¬ env.hasEmbLib then { result := none, state := st1, loadAttempted := false }
      else
        match env.embLoad with
        | Except.ok e =>
          { result := some e, state := { emb := some e, attempted := true }, loadAttempted := true }
        | Except.error _ => { result := none, state := st1, loadAttempted := true }

/-- Run `n` successive `get_embeddings()` calls from process start,
counting how many of them ran the model constructor. -/
def embRun (env : Env) : Nat → EmbState × Nat
  | 0 => (embInitState, 0)
  | n + 1 =>
    let (st, cnt) := embRun env n
    let c := get_embeddings env st
    (c.state, cnt + (if c.loadAttempted then 1 else 0))

/-- Paragraph-packing loop shared by the fallback chunker and the page
segmenter: pack paragraphs into units not exceeding `maxChars`, flushing
the stripped accumulator when it would overflow. -/
def packLoop (maxChars : Nat) : List String → String → List String → List String
  | [], current, acc =>
    if (pyStrip current).isEmpty then acc else acc ++ [pyStrip current]
  | para :: rest, current, acc =>
    if current.length + para.length > maxChars ∧ ¬ current.isEmpty then
      packLoop maxChars rest para (acc ++ [pyStrip current])
    else
      packLoop maxChars rest (if current.isEmpty then para else current ++ "\n\n" ++ para) acc

/-- Model of `chunk_text`: LangChain splitter when available (an oracle,
with its try/except), else paragraph packing; empty input gives no
chunks. -/
def chunk_text (env : Env) (text : String) (chunkSize : Nat := 1000)
    (_chunkOverlap : Nat := 200) : List String :=
  if (pyStrip text).isEmpty then []
  else if env.hasLangchain then
    match env.splitText text with
    | Except.ok chunks => chunks
    | Except.error _ => [text]
  else
    let paragraphs := splitNl2 text
    let chunks := packLoop chunkSize paragraphs "" []
    if chunks.isEmpty then [text] else chunks

/-- Model of `segment_pages`: split on explicit page-break markers when
more than one piece survives stripping, else pack paragraphs into pages of
at most `maxChars` characters. -/
def segment_pages (text : String) (maxChars : Nat := 3000) : List String :=
  if (pyStrip text).isEmpty then [text]
  else
    let pages1 := ((splitMarkers text).map pyStrip).filter (fun p => ¬ p.isEmpty)
    if pages1.length > 1 then pages1
    else
      let paragraphs := splitNl2 text
      let packed := packLoop maxChars paragraphs "" []
      if packed.isEmpty then [text] else packed

/-- Character class `[a-zA-Z0-9_\-]` kept by the user-id sanitizer. -/
def isSafeChar (c : Char) : Bool :=
  (97 ≤ c.toNat && c.toNat ≤ 122) || (65 ≤ c.toNat && c.toNat ≤ 90) ||
  (48 ≤ c.toNat && c.toNat ≤ 57) || c = '_' || c = '-'

/-- Model of `re.sub(r'[^a-zA-Z0-9_\-]', '_', user_id)`: every character
outside the safe class becomes an underscore. -/
def sanitize_user_id (uid : String) : String :=
  String.mk (uid.data.map (fun c => if isSafeChar c then c else '_'))

/-- Filesystem location derived from the sanitized user id
(`VECTOR_STORE_DIR / safe_user_id`). -/
def storePath (uid : String) : String :=
  "vector_stores/" ++ sanitize_user_id uid

/-- Model of `build_vector_store`: chunk, embed and index the text,
returning None on any failure; persisting to disk is best-effort and its
outcome is discarded. -/
def build_vector_store (env : Env) (text : String) (user_id : String)
    (st : EmbState) : Option VS × EmbState :=
  if ¬ env.hasFaiss then (none, st)
  else
    let c := get_embeddings env st
    match c.result with
    | none => (none, c.state)
    | some _ =>
      let chunks := chunk_text env text 1000 200
      if chunks.isEmpty then (none, c.state)
      else
        match env.faissBuild chunks with
        | Except.error _ => (none, c.state)
        | Except.ok _ =>
          let _persistOutcome := env.saveLocal (storePath user_id)
          (some (), c.state)

/-- Model of `load_vector_store`: best-effort read of a persisted index
for the sanitized user id; absence or failure yields None. -/
def load_vector_store (env : Env) (user_id : String) (st : EmbState) :
    Option VS × EmbState :=
  if ¬ env.hasFaiss then (none, st)
  else
    let c := get_embeddings env st
    match c.result with
    | none => (none, c.state)
    | some _ =>
      if ¬ env.pathExists (storePath user_id) then (none, c.state)
      else
        match env.loadLocal (storePath user_id) with
        | Except.ok _ => (some (), c.state)
        | Except.error _ => (none, c.state)

/-- Model of `retrieve_context`: top-k similarity search joined with a
visible separator; None store or a raising query yields the empty
string. -/
def retrieve_context (env : Env) (vs : Option VS) (query : String) (k : Nat) : String :=
  match vs with
  | none => ""
  | some _ =>
    match env.search query k with
    | Except.error _ => ""
    | Except.ok docs => strJoin "\n\n---\n\n" docs

/-- Audience tone directive for executives. -/
def executiveInstr : String :=
  "Use very concise, high-level business language. Focus on ROI, strategic impact, and bottom-line results."

/-- Audience tone directive for managers (also the default). -/
def managerInstr : String :=
  "Use clear, simple English (Grade 6 level). Focus on project progress, team impact, and actionable items."

/-- Audience tone directive for clients. -/
def clientInstr : String :=
  "Use professional but very simple language. Focus on deliverables, timelines, and value provided."

/-- Audience tone directive for interns. -/
def internInstr : String :=
  "Use the simplest possible language. Explain every concept as if the reader has no technical background."

/-- Model of `get_audience_instructions`: lower-case lookup in the fixed
audience table, defaulting to the manager directive. -/
def get_audience_instructions (audience : String) : String :=
  let key := pyLower audience
  if key = "executive" then executiveInstr
  else if key = "manager" then managerInstr
  else if key = "client" then clientInstr
  else if key = "intern" then internInstr
  else managerInstr

/-- Model of `build_simplification_prompt` (the f-string of the simplify
task, with its optional retrieved-context block). -/
def build_simplification_prompt (page_text context : String) (page_number : Int)
    (audience : String) : String :=
  let context_block :=
    if ¬ context.isEmpty then
      "\n\nHere is additional relevant context retrieved from the document:\n---\n"
        ++ pyTake context 2000 ++ "\n---\n"
    else ""
  "You are an expert business communication assistant.\n\nTask:\nConvert the following technical project update into a simplified executive summary.\n\nAudience: "
    ++ pyCapitalize audience ++ "\n" ++ get_audience_instructions audience ++ "\n"
    ++ context_block
    ++ "\nRules:\n- Use very simple English (Grade 6 level).\n- Avoid technical jargon.\n- Explain in a way that the target audience can understand.\n- Keep structure aligned with original content.\n- Provide a short heading for this section.\n- Add a brief explanation of key impact.\n- Suggest a relevant image idea for this section.\n- Output format must be valid JSON:\n\n\x7b\n  \"page_number\": "
    ++ toString page_number
    ++ ",\n  \"title\": \"...\",\n  \"simplified_text\": \"...\",\n  \"image_prompt\": \"...\"\n\x7d\n\nContent to simplify:\n---\n"
    ++ page_text ++ "\n---\n\nRespond ONLY with the JSON object, no other text."

/-- Model of `call_perplexity`: empty string when the client library is
missing, no valid key is configured, or the remote call raises; otherwise
the stripped response content.  Never raises to its caller. -/
def call_perplexity (env : Env) (callIdx : Nat) (prompt system_msg : String) : String :=
  if ¬ env.hasOpenai then ""
  else if env.apiKey = "" || env.apiKey = "your_perplexity_api_key_here" then ""
  else
    match env.remote callIdx prompt system_msg with
    | Except.error _ => ""
    | Except.ok content => pyStrip content

/-- Fallback object of the `json.JSONDecodeError` handler of
`parse_llm_json` (raw text becomes the simplified text). -/
def parseDecodeFallback (raw : String) (page_number : Int) : Dict :=
  [("page_number", Json.num page_number),
   ("title", Json.str ("Section " ++ toString page_number)),
   ("simplified_text", Json.str (pyTake raw 1500)),
   ("image_prompt", Json.str "A simple infographic summarizing the key points")]

/-- Fallback object of the generic `except Exception` handler of
`parse_llm_json`. -/
def parseGenericFallback (raw : String) (page_number : Int) : Dict :=
  [("page_number", Json.num page_number),
   ("title", Json.str ("Section " ++ toString page_number)),
   ("simplified_text",
     Json.str (if ¬ raw.isEmpty then pyTake raw 1500 else "Processing error occurred.")),
   ("image_prompt", Json.str "A simple infographic summarizing the key points")]

/-- Model of `parse_llm_json`: strip fences and parse; on decode failure
retry on the first brace span; the parsed object gets `page_number`
overwritten.  A successful parse of a non-dict value makes the page-number
assignment raise `TypeError`, caught by the generic handler.  Empty input
returns the empty dict. -/
def parse_llm_json (raw : String) (page_number : Int) : Dict :=
  if raw.isEmpty then []
  else
    match jsonLoads (stripFences (pyStrip raw)) with
    | Except.ok (Json.obj entries) => dictSet entries "page_number" (Json.num page_number)
    | Except.ok _ => parseGenericFallback raw page_number
    | Except.error _ =>
      match firstBraceSpan raw with
      | some span =>
        match jsonLoads span with
        | Except.ok (Json.obj entries) => dictSet entries "page_number" (Json.num page_number)
        | _ => parseDecodeFallback raw page_number
      | none => parseDecodeFallback raw page_number

/-- Model of `generate_mock_response`: deterministic extractive result
built from the page text alone (title from the first line with leading
markup stripped, bullets from the first qualifying sentences). -/
def generate_mock_response (page_text : String) (page_number : Int)
    (audience : String) : Dict :=
  let lines := splitChar '\n' (pyStrip page_text)
  let title_line := lines.headD "Section Summary"
  let title0 := pyTake (mockTitleStrip title_line) 80
  let title :=
    if title0.isEmpty then "Section " ++ toString page_number ++ " Summary" else title0
  let sentences := splitPunct page_text
  let key_sentences := ((sentences.take 5).map pyStrip).filter (fun s => s.length > 20)
  let bullets := key_sentences.foldl
    (fun acc sent => acc ++ "• " ++ sent ++ ".\n")
    "Here\x27s what this section is about in simple terms:\n\n"
  let bullets2 :=
    if key_sentences.isEmpty then bullets ++ "• " ++ pyTake page_text 300 ++ "...\n"
    else bullets
  let simplified := bullets2 ++ "\n📌 This section is written for a " ++ audience ++ " audience."
  [("page_number", Json.num page_number),
   ("title", Json.str title),
   ("simplified_text", Json.str simplified),
   ("image_prompt", Json.str "A team collaboration infographic showing project milestones")]

/-- System message of the simplify task. -/
def simplifySystemMsg : String :=
  "You are a helpful assistant that simplifies technical documents. Always respond with valid JSON only."

/-- Raw model output for one page of the simplify flow (context retrieval,
prompt construction, model call). -/
def simplifyRaw (env : Env) (vs : Option VS) (page_text : String)
    (page_number : Int) (audience : String) : String :=
  call_perplexity env page_number.toNat
    (build_simplification_prompt page_text
      (retrieve_context env vs page_text 4) page_number audience)
    simplifySystemMsg

/-- Condition under which the model path of one page fails and the mock
fallback is used: empty raw output, or a parse result without a usable
`simplified_text` field. -/
def simplifyFailed (env : Env) (vs : Option VS) (page_text : String)
    (page_number : Int) (audience : String) : Bool :=
  let raw := simplifyRaw env vs page_text page_number audience
  raw.isEmpty || !(dictGet (parse_llm_json raw page_number) "simplified_text").isSome

/-- Model of `simplify_page`: RAG context, prompt, model call, parse; the
mock fallback on empty output or missing required field. -/
def simplify_page (env : Env) (vs : Option VS) (page_text : String)
    (page_number : Int) (audience : String) : Dict :=
  let raw := simplifyRaw env vs page_text page_number audience
  if ¬ raw.isEmpty then
    let result := parse_llm_json raw page_number
    if (dictGet result "simplified_text").isSome then result
    else generate_mock_response page_text page_number audience
  else generate_mock_response page_text page_number audience

/-- Index-aware map used to model `enumerate`. -/
def listMapIdx (f : Nat → α → β) : Nat → List α → List β
  | _, [] => []
  | i, a :: as => f i a :: listMapIdx f (i + 1) as

/-- Event-loop model of `asyncio.gather`: tasks complete in the order
given by the schedule `order`, each completion storing its outcome in the
slot of its original index. -/
def fillSlots (tasks : List α) : List Nat → List (Option α) → List (Option α)
  | [], acc => acc
  | j :: rest, acc =>
    match tasks[j]? with
    | some t => fillSlots tasks rest (acc.set j (some t))
    | none => fillSlots tasks rest acc

/-- Readout of the gathered results in original index order, independent
of the completion schedule; `dflt` stands for a task that never completed
(impossible for a schedule that is a permutation of the indices). -/
def asyncGather (dflt : α) (tasks : List α) (order : List Nat) : List α :=
  (fillSlots tasks order (List.replicate tasks.length none)).map (fun o => o.getD dflt)

/-- Model of the result loop of `process_document` (lines handling
`return_exceptions=True`): an exception outcome for page `i` is replaced
by that page's mock response. -/
def handleGatherResults (pages : List String) (audience : String)
    (results : List (Except PyErr Dict)) : List Dict :=
  listMapIdx (fun i r =>
    match r with
    | Except.ok d => d
    | Except.error _ => generate_mock_response (pages.getD i "") (Int.ofNat i + 1) audience)
    0 results

/-- Per-page tasks of `process_document`: one `simplify_page` coroutine per
segmented page, sharing the vector store built once from the whole text. -/
def processTasks (env : Env) (st : EmbState) (text audience user_id : String) :
    List (Except PyErr Dict) :=
  listMapIdx (fun i page =>
    Except.ok (simplify_page env (build_vector_store env text user_id st).1
      page (Int.ofNat i + 1) audience))
    0 (segment_pages text 3000)

/-- Model of `process_document`: build the vector store, segment into
pages, fan out one simplify task per page under completion schedule
`order`, and reassemble the page results in original order. -/
def process_document (env : Env) (st : EmbState) (order : List Nat)
    (text audience user_id : String) : Dict :=
  [("pages", Json.arr
    ((handleGatherResults (segment_pages text 3000) audience
      (asyncGather (Except.error "unawaited") (processTasks env st text audience user_id) order)).map
      Json.obj))]

/-- System message of the ask task. -/
def askSystemMsg : String :=
  "You are a helpful document Q&A assistant. Always respond with valid JSON only."

/-- Retrieved context of the ask flow (k = 5, probing with the question). -/
def askContextOf (env : Env) (st : EmbState) (text question user_id : String) : String :=
  retrieve_context env (build_vector_store env text user_id st).1 question 5

/-- Prompt of the ask flow, with retrieved context or a truncated raw-text
block when retrieval is unavailable. -/
def askPromptOf (context text question : String) : String :=
  let context_block :=
    if ¬ context.isEmpty then
      "\nHere is the relevant context from the uploaded document:\n---\n"
        ++ pyTake context 3000 ++ "\n---\n"
    else if ¬ text.isEmpty then
      "\nHere is the document content:\n---\n" ++ pyTake text 3000 ++ "\n---\n"
    else ""
  "You are an intelligent document assistant.\n\nThe user has uploaded a document and is asking a question about it.\n"
    ++ context_block
    ++ "\nUser\x27s Question: " ++ question
    ++ "\n\nInstructions:\n- Answer the question based ONLY on the document content provided above.\n- If the answer is not in the document, say so clearly.\n- Be concise but thorough.\n- Use simple, clear language.\n\nRespond with a JSON object:\n\x7b\n  \"answer\": \"your detailed answer here\",\n  \"confidence\": \"high/medium/low\",\n  \"relevant_excerpt\": \"brief quote from the document that supports your answer\"\n\x7d\n\nRespond ONLY with the JSON object."

/-- Raw model output of the ask flow. -/
def askRaw (env : Env) (st : EmbState) (text question user_id : String) : String :=
  call_perplexity env 0
    (askPromptOf (askContextOf env st text question user_id) text question)
    askSystemMsg

/-- Degraded answer of the ask flow: a fixed message around a raw document
excerpt, with low confidence. -/
def askFallback (text : String) : Dict :=
  [("success", Json.bool true),
   ("answer", Json.str
     ("Based on the document, here is what I found related to your question:\n\n"
       ++ pyTake text 500
       ++ "...\n\n(Note: AI service returned no structured answer, showing document excerpt instead.)")),
   ("confidence", Json.str "low"),
   ("relevant_excerpt", Json.str (pyTake text 200))]

/-- Model of `ask_document`: RAG Q&A with acceptance of either an `answer`
field or a substituted `simplified_text` field, else the degraded
answer. -/
def ask_document (env : Env) (st : EmbState) (text question user_id : String) : Dict :=
  let raw := askRaw env st text question user_id
  if ¬ raw.isEmpty then
    let result := parse_llm_json raw 1
    if (dictGet result "answer").isSome then
      dictSpread [("success", Json.bool true)] result
    else
      match dictGet result "simplified_text" with
      | some v =>
        [("success", Json.bool true),
         ("answer", v),
         ("confidence", Json.str "medium"),
         ("relevant_excerpt", Json.str "")]
      | none => askFallback text
  else askFallback text

/-- System message of the summarize task. -/
def summarizeSystemMsg : String :=
  "You are a summarization assistant. Always respond with valid JSON only."

/-- Prompt of the summarize flow (no retrieval; truncated text prefix). -/
def summarizePromptOf (text : String) : String :=
  "You are a summarization expert.\n\nSummarize the following text into a clear, concise paragraph (3-5 sentences).\nFocus on the most important points.\n\nText:\n---\n"
    ++ pyTake text 4000
    ++ "\n---\n\nRespond with a JSON object:\n\x7b\n  \"summary\": \"your concise summary paragraph here\",\n  \"word_count\": <number of words in the summary>,\n  \"key_topics\": [\"topic1\", \"topic2\", \"topic3\"]\n\x7d\n\nRespond ONLY with the JSON object."

/-- Raw model output of the summarize flow. -/
def summarizeRaw (env : Env) (text : String) : String :=
  call_perplexity env 0 (summarizePromptOf text) summarizeSystemMsg

/-- The extractive fallback summary string (`fallback` in the source):
the first few long sentences joined, or a raw prefix when none qualify. -/
def summarizeFallbackText (text : String) : String :=
  let sentences := splitPunct text
  let key := ((sentences.take 3).map pyStrip).filter (fun s => s.length > 15)
  if ¬ key.isEmpty then strJoin ". " key ++ "." else pyTake text 300

/-- Extractive fallback result of the summarize flow. -/
def summarizeFallback (text : String) : Dict :=
  [("success", Json.bool true),
   ("summary", Json.str (summarizeFallbackText text)),
   ("word_count", Json.num (Int.ofNat (pySplitWs (summarizeFallbackText text)).length)),
   ("key_topics", Json.arr [])]

/-- Error result of the outer `except` of `summarize_text` (reached in the
model when a non-string `simplified_text` makes `.split()` raise; the
exception text is abbreviated). -/
def summarizeErrorDict : Dict :=
  [("success", Json.bool false),
   ("summary", Json.str "Summarization failed: object has no attribute split"),
   ("word_count", Json.num 0),
   ("key_topics", Json.arr [])]

/-- Model of `summarize_text`: single model call over a truncated prefix;
accept a `summary` field, substitute a string `simplified_text` (counting
its words), else the extractive fallback. -/
def summarize_text (env : Env) (text : String) : Dict :=
  let raw := summarizeRaw env text
  if ¬ raw.isEmpty then
    let result := parse_llm_json raw 1
    if (dictGet result "summary").isSome then
      dictSpread [("success", Json.bool true)] result
    else
      match dictGet result "simplified_text" with
      | some (Json.str s) =>
        [("success", Json.bool true),
         ("summary", Json.str s),
         ("word_count", Json.num (Int.ofNat (pySplitWs s).length)),
         ("key_topics", Json.arr [])]
      | some _ => summarizeErrorDict
      | none => summarizeFallback text
  else summarizeFallback text

/-- System message of the extract task. -/
def extractSystemMsg : String :=
  "You are a document analysis assistant. Always respond with valid JSON only."

/-- Prompt of the extract flow (truncated text prefix, no context block). -/
def extractPromptOf (doc_text : String) : String :=
  "You are an expert analyst.\n\nExtract the key points and takeaways from the following document.\n\nDocument:\n---\n"
    ++ doc_text
    ++ "\n---\n\nRespond with a JSON object:\n\x7b\n  \"key_points\": [\n    \x7b\"point\": \"First key point\", \"importance\": \"high/medium/low\"\x7d,\n    \x7b\"point\": \"Second key point\", \"importance\": \"high/medium/low\"\x7d\n  ],\n  \"overall_theme\": \"One sentence describing the main theme\",\n  \"action_items\": [\"action 1\", \"action 2\"]\n\x7d\n\nExtract 5-10 key points. Respond ONLY with the JSON object."

/-- Raw model output of the extract flow. -/
def extractRaw (env : Env) (st : EmbState) (text user_id : String) : String :=
  let _vs := build_vector_store env text user_id st
  call_perplexity env 0 (extractPromptOf (pyTake text 5000)) extractSystemMsg

/-- Extractive fallback of the extract flow: up to seven long sentences as
medium-importance points with a generic theme. -/
def extractFallback (text : String) : Dict :=
  let sentences := splitPunct text
  let points := ((sentences.take 7).filter (fun s => (pyStrip s).length > 20)).map
    (fun s => Json.obj [("point", Json.str (pyStrip s)), ("importance", Json.str "medium")])
  [("success", Json.bool true),
   ("key_points", Json.arr
     (if points.isEmpty then
       [Json.obj [("point", Json.str (pyTake text 200)), ("importance", Json.str "medium")]]
      else points)),
   ("overall_theme", Json.str "Document analysis"),
   ("action_items", Json.arr [])]

/-- Model of `extract_key_points`: build the vector store (context unused
by the prompt), single model call, accept a `key_points` field, else the
extractive fallback. -/
def extract_key_points (env : Env) (st : EmbState) (text user_id : String) : Dict :=
  let raw := extractRaw env st text user_id
  if ¬ raw.isEmpty then
    let result := parse_llm_json raw 1
    if (dictGet result "key_points").isSome then
      dictSpread [("success", Json.bool true)] result
    else extractFallback text
  else extractFallback text

/-- Decision of whether `parse_llm_json` reached a successful JSON-object
parse (either on the fence-stripped input or on the first brace span):
exactly the inputs for which no synthesized fallback object is built. -/
def parseSucceededAsObj (raw : String) : Bool :=
  match jsonLoads (stripFences (pyStrip raw)) with
  | Except.ok (Json.obj _) => true
  | Except.ok _ => false
  | Except.error _ =>
    match firstBraceSpan raw with
    | some span =>
      match jsonLoads span with
      | Except.ok (Json.obj _) => true
      | _ => false
    | none => false

/-- The regex `[A-Za-z0-9_-]+` as a predicate: non-empty and every
character in the safe class. -/
def matchesSafePlus (s : String) : Bool :=
  !s.data.isEmpty && s.data.all isSafeChar

/-- Environment with every dependency missing and every oracle failing:
the total-failure configuration. -/
def envNoDeps : Env :=
  { hasLangchain := false, hasFaiss := false, hasEmbLib := false, hasOpenai := false,
    apiKey := "", embLoad := Except.error "no module",
    splitText := fun _ => Except.error "no module",
    faissBuild := fun _ => Except.error "no module",
    saveLocal := fun _ => Except.error "no module",
    pathExists := fun _ => false,
    loadLocal := fun _ => Except.error "no module",
    search := fun _ _ => Except.error "no module",
    remote := fun _ _ _ => Except.error "no module" }

/-- Raw model output of end-to-end scenario 3: a fenced JSON summary. -/
def c4Raw : String :=
  "```json\n\x7b\"summary\":\"X\",\"word_count\":1,\"key_topics\":[]\x7d\n```"

/-- Environment whose model call returns the scenario-3 fenced JSON. -/
def envC4 : Env :=
  { envNoDeps with
    hasOpenai := true
    apiKey := "key"
    remote := fun _ _ _ => Except.ok c4Raw }

/-- The result object that end-to-end scenario 3 claims (without the
injected page number). -/
def c4Claimed : Dict :=
  [("success", Json.bool true), ("summary", Json.str "X"),
   ("word_count", Json.num 1), ("key_topics", Json.arr [])]

/-- Environment whose model call returns a bare JSON answer object. -/
def envAnswerOnly : Env :=
  { envNoDeps with
    hasOpenai := true
    apiKey := "key"
    remote := fun _ _ _ => Except.ok "\x7b\"answer\":\"hi\"\x7d" }

/-- Environment whose model call returns only a simplified_text field. -/
def envSimplifiedOnly : Env :=
  { envNoDeps with
    hasOpenai := true
    apiKey := "key"
    remote := fun _ _ _ => Except.ok "\x7b\"simplified_text\":\"hello world\"\x7d" }

/-- Environment whose model call returns a bare key_points object. -/
def envPointsOnly : Env :=
  { envNoDeps with
    hasOpenai := true
    apiKey := "key"
    remote := fun _ _ _ => Except.ok "\x7b\"key_points\":[]\x7d" }

/-- Keys of a dict are pairwise distinct. -/
def dictNodup (d : Dict) : Prop := (d.map Prod.fst).Nodup

theorem dictGet_dictSet_self (d : Dict) (k : String) (v : Json) :
    dictGet (dictSet d k v) k = some v := by
  induction d with
  | nil => simp [dictSet, dictGet]
  | cons kv rest ih =>
    obtain ⟨k1, v1⟩ := kv
    by_cases h : k1 = k
    · subst h; simp [dictSet, dictGet]
    · simp [dictSet, dictGet, h, ih]

theorem dictGet_dictSet_ne (d : Dict) (k k' : String) (v : Json) (h : k' ≠ k) :
    dictGet (dictSet d k v) k' = dictGet d k' := by
  have h2 : ¬ k = k' := fun hh => h hh.symm
  induction d with
  | nil => simp [dictSet, dictGet, h2]
  | cons kv rest ih =>
    obtain ⟨k1, v1⟩ := kv
    by_cases h1 : k1 = k
    · subst h1
      simp [dictSet, dictGet, h2]
    · simp only [dictSet, if_neg h1, dictGet, ih]

theorem isSome_dictGet_dictSet (d : Dict) (k k' : String) (v : Json)
    (h : (dictGet d k').isSome = true) :
    (dictGet (dictSet d k v) k').isSome = true := by
  by_cases he : k' = k
  · subst he; simp [dictGet_dictSet_self]
  · rwa [dictGet_dictSet_ne _ _ _ _ he]

theorem dictSpread_cons (base : Dict) (kv : String × Json) (rest : Dict) :
    dictSpread base (kv :: rest) = dictSpread (dictSet base kv.1 kv.2) rest := rfl

theorem isSome_dictGet_dictSpread (extra : Dict) :
    ∀ base : Dict, ∀ k : String, (dictGet base k).isSome = true →
    (dictGet (dictSpread base extra) k).isSome = true := by
  induction extra with
  | nil => intro base k h; simpa [dictSpread]
  | cons kv rest ih =>
    intro base k h
    rw [dictSpread_cons]
    exact ih _ _ (isSome_dictGet_dictSet _ _ _ _ h)

theorem dictGet_eq_none_iff (d : Dict) (k : String) :
    dictGet d k = none ↔ k ∉ d.map Prod.fst := by
  induction d with
  | nil => simp [dictGet]
  | cons kv rest ih =>
    obtain ⟨k1, v1⟩ := kv
    by_cases h : k1 = k
    · subst h; simp [dictGet]
    · have h2 : ¬ k = k1 := fun hh => h hh.symm
      simp [dictGet, h, h2, ih]

theorem dictGet_dictSpread_not_mem (extra : Dict) :
    ∀ base : Dict, ∀ k : String, k ∉ extra.map Prod.fst →
    dictGet (dictSpread base extra) k = dictGet base k := by
  induction extra with
  | nil => intro base k _; simp [dictSpread]
  | cons kv rest ih =>
    intro base k h
    simp only [List.map_cons, List.mem_cons, not_or] at h
    rw [dictSpread_cons, ih _ _ h.2, dictGet_dictSet_ne _ _ _ _ h.1]

theorem dictGet_dictSpread_of_mem (extra : Dict) :
    ∀ base : Dict, ∀ k : String, ∀ v : Json, dictNodup extra →
    dictGet extra k = some v → dictGet (dictSpread base extra) k = some v := by
  induction extra with
  | nil => intro base k v _ h; simp [dictGet] at h
  | cons kv rest ih =>
    intro base k v hnd h
    obtain ⟨k1, v1⟩ := kv
    simp only [dictNodup, List.map_cons, List.nodup_cons] at hnd
    by_cases he : k1 = k
    · subst he
      simp only [dictGet, if_pos rfl] at h
      obtain rfl : v1 = v := Option.some.inj h
      rw [dictSpread_cons, dictGet_dictSpread_not_mem _ _ _ hnd.1,
        dictGet_dictSet_self]
    · simp only [dictGet, if_neg he] at h
      rw [dictSpread_cons]
      exact ih _ _ _ hnd.2 h

theorem keys_dictSet (d : Dict) (k : String) (v : Json) :
    (dictSet d k v).map Prod.fst =
      if k ∈ d.map Prod.fst then d.map Prod.fst else d.map Prod.fst ++ [k] := by
  induction d with
  | nil => simp [dictSet]
  | cons kv rest ih =>
    obtain ⟨k1, v1⟩ := kv
    by_cases h : k1 = k
    · subst h; simp [dictSet]
    · have h2 : ¬ k = k1 := fun hh => h hh.symm
      simp only [dictSet, if_neg h, List.map_cons, ih, List.mem_cons]
      by_cases hm : k ∈ rest.map Prod.fst
      · simp [hm, h2]
      · simp [hm, h2]

theorem dictNodup_dictSet (d : Dict) (k : String) (v : Json) (h : dictNodup d) :
    dictNodup (dictSet d k v) := by
  unfold dictNodup at *
  rw [keys_dictSet]
  by_cases hm : k ∈ d.map Prod.fst
  · simpa [hm]
  · simp [hm, List.nodup_append, h]

theorem length_listMapIdx (f : Nat → α → β) :
    ∀ (l : List α) (k : Nat), (listMapIdx f k l).length = l.length := by
  intro l
  induction l with
  | nil => intro k; simp [listMapIdx]
  | cons a as ih => intro k; simp [listMapIdx, ih]

theorem getElem?_listMapIdx (f : Nat → α → β) :
    ∀ (l : List α) (k i : Nat), (listMapIdx f k l)[i]? = l[i]?.map (f (k + i)) := by
  intro l
  induction l with
  | nil => intro k i; simp [listMapIdx]
  | cons a as ih =>
    intro k i
    cases i with
    | zero => simp [listMapIdx]
    | succ i =>
      simp only [listMapIdx, List.getElem?_cons_succ, ih (k + 1) i]
      have he : k + 1 + i = k + (i + 1) := by omega
      rw [he]

theorem mem_listMapIdx (f : Nat → α → β) :
    ∀ (l : List α) (k : Nat) (x : β), x ∈ listMapIdx f k l →
    ∃ (i : Nat) (a : α), l[i]? = some a ∧ x = f (k + i) a := by
  intro l
  induction l with
  | nil => intro k x h; simp [listMapIdx] at h
  | cons a as ih =>
    intro k x h
    simp only [listMapIdx, List.mem_cons] at h
    rcases h with h | h
    · exact ⟨0, a, by simp, by simpa using h⟩
    · obtain ⟨i, b, hb, hx⟩ := ih (k + 1) x h
      exact ⟨i + 1, b, by simpa using hb, by rw [hx]; congr 1; omega⟩

theorem length_fillSlots (tasks : List α) :
    ∀ (order : List Nat) (init : List (Option α)),
    (fillSlots tasks order init).length = init.length := by
  intro order
  induction order with
  | nil => intro init; simp [fillSlots]
  | cons j rest ih =>
    intro init
    simp only [fillSlots]
    cases tasks[j]? with
    | none => exact ih init
    | some t => rw [ih]; exact List.length_set ..

theorem getElem?_fillSlots_not_mem (tasks : List α) :
    ∀ (order : List Nat) (init : List (Option α)) (j : Nat), j ∉ order →
    (fillSlots tasks order init)[j]? = init[j]? := by
  intro order
  induction order with
  | nil => intro init j _; simp [fillSlots]
  | cons o rest ih =>
    intro init j hj
    simp only [List.mem_cons, not_or] at hj
    simp only [fillSlots]
    cases tasks[o]? with
    | none => exact ih init j hj.2
    | some t =>
      rw [ih _ j hj.2, List.getElem?_set_ne (fun h => hj.1 h.symm)]

theorem getElem?_fillSlots_mem (tasks : List α) :
    ∀ (order : List Nat) (init : List (Option α)) (j : Nat) (t : α),
    j ∈ order → tasks[j]? = some t → init.length = tasks.length →
    (fillSlots tasks order init)[j]? = some (some t) := by
  intro order
  induction order with
  | nil => intro init j t h; simp at h
  | cons o rest ih =>
    intro init j t hj ht hlen
    by_cases hjr : j ∈ rest
    · simp only [fillSlots]
      cases hto : tasks[o]? with
      | none => exact ih init j t hjr ht hlen
      | some t0 =>
        exact ih _ j t hjr ht (by rw [List.length_set]; exact hlen)
    · have hoj : o = j := by
        rcases List.mem_cons.mp hj with h | h
        · exact h.symm
        · exact absurd h hjr
      subst hoj
      simp only [fillSlots, ht]
      rw [getElem?_fillSlots_not_mem tasks rest _ o hjr]
      have hlt : o < init.length := by
        rw [hlen]
        exact (List.getElem?_eq_some_iff.mp ht).1
      exact List.getElem?_set_self hlt

theorem asyncGather_perm (dflt : α) (tasks : List α) (order : List Nat)
    (h : order.Perm (List.range tasks.length)) :
    asyncGather dflt tasks order = tasks := by
  apply List.ext_getElem?
  intro j
  unfold asyncGather
  rw [List.getElem?_map]
  by_cases hj : j < tasks.length
  · have hjm : j ∈ order := h.mem_iff.mpr (List.mem_range.mpr hj)
    have ht : tasks[j]? = some tasks[j] := List.getElem?_eq_getElem hj
    rw [getElem?_fillSlots_mem tasks order _ j _ hjm ht (by simp)]
    simp [ht]
  · have h1 : tasks[j]? = none := List.getElem?_eq_none (Nat.le_of_not_lt hj)
    have h2 : (fillSlots tasks order (List.replicate tasks.length none))[j]? = none := by
      apply List.getElem?_eq_none
      rw [length_fillSlots]
      simpa using Nat.le_of_not_lt hj
    simp [h1, h2]

theorem mem_fillSlots (tasks : List α) :
    ∀ (order : List Nat) (init : List (Option α)) (x : Option α),
    x ∈ fillSlots tasks order init → x ∈ init ∨ ∃ t ∈ tasks, x = some t := by
  intro order
  induction order with
  | nil => intro init x h; exact Or.inl h
  | cons o rest ih =>
    intro init x h
    simp only [fillSlots] at h
    cases hto : tasks[o]? with
    | none => rw [hto] at h; exact ih init x h
    | some t =>
      rw [hto] at h
      rcases ih _ x h with hin | hex
      · rcases List.mem_or_eq_of_mem_set hin with hin2 | heq
        · exact Or.inl hin2
        · exact Or.inr ⟨t, List.getElem?_mem hto, heq⟩
      · exact Or.inr hex

theorem mem_asyncGather (dflt : α) (tasks : List α) (order : List Nat) (x : α)
    (h : x ∈ asyncGather dflt tasks order) : x = dflt ∨ x ∈ tasks := by
  unfold asyncGather at h
  obtain ⟨o, ho, hx⟩ := List.mem_map.mp h
  rcases mem_fillSlots tasks order _ o ho with hin | ⟨t, ht, rfl⟩
  · have : o = none := List.eq_of_mem_replicate hin
    subst this
    exact Or.inl hx.symm
  · exact Or.inr (hx ▸ ht)

theorem asciiLower_idem (c : Char) : asciiLower (asciiLower c) = asciiLower c := by
  by_cases h : 65 ≤ c.toNat ∧ c.toNat ≤ 90
  · have hv : (c.toNat + 32).isValidChar := Or.inl (by omega)
    have h2 : (Char.ofNat (c.toNat + 32)).toNat = c.toNat + 32 := by
      simp only [Char.ofNat, hv, dif_pos]
      rfl
    have hne : ¬ (65 ≤ (Char.ofNat (c.toNat + 32)).toNat ∧
        (Char.ofNat (c.toNat + 32)).toNat ≤ 90) := by rw [h2]; omega
    unfold asciiLower
    rw [if_pos h, if_neg hne]
  · unfold asciiLower
    rw [if_neg h, if_neg h]

theorem pyLower_idem (s : String) : pyLower (pyLower s) = pyLower s := by
  have h : asciiLower ∘ asciiLower = asciiLower := funext asciiLower_idem
  simp [pyLower, List.map_map, h]

theorem pyTake_append_pyDrop (s : String) (n : Nat) :
    pyTake s n ++ pyDrop s n = s := by
  apply String.ext
  simp [pyTake, pyDrop]

theorem parseJNum_not_obj (cs : List Char) (entries : Dict) (r : List Char) :
    parseJNum cs ≠ some (Json.obj entries, r) := by
  intro h
  unfold parseJNum at h
  dsimp only at h
  repeat' split at h
  all_goals
    first
      | exact Option.noConfusion h
      | (injection h with h1; injection h1 with h2 h3; exact Json.noConfusion h2)

theorem parseJArrRest_shape :
    ∀ (fuel : Nat) (cs : List Char) (acc : List Json) (v : Json) (r : List Char),
    parseJArrRest fuel cs acc = some (v, r) → ∃ xs, v = Json.arr xs := by
  intro fuel
  induction fuel with
  | zero => intro cs acc v r h; simp [parseJArrRest] at h
  | succ n ih =>
    intro cs acc v r h
    simp only [parseJArrRest] at h
    repeat' split at h
    · exact Option.noConfusion h
    · exact ih _ _ _ _ h
    · injection h with h1
      injection h1 with h2 h3
      exact ⟨_, h2.symm⟩
    · exact Option.noConfusion h

theorem parseJObjRest_shape :
    ∀ (fuel : Nat) (cs : List Char) (acc : Dict) (v : Json) (r : List Char),
    dictNodup acc → parseJObjRest fuel cs acc = some (v, r) →
    ∃ entries, v = Json.obj entries ∧ dictNodup entries := by
  intro fuel
  induction fuel with
  | zero => intro cs acc v r _ h; simp [parseJObjRest] at h
  | succ n ih =>
    intro cs acc v r hnd h
    simp only [parseJObjRest] at h
    try dsimp only at h
    repeat' split at h
    all_goals
      first
        | exact Option.noConfusion h
        | exact ih _ _ _ _ (dictNodup_dictSet _ _ _ hnd) h
        | (injection h with h1; injection h1 with h2 h3;
           exact ⟨_, h2.symm, dictNodup_dictSet _ _ _ hnd⟩)

theorem parseJVal_obj_nodup :
    ∀ (fuel : Nat) (cs : List Char) (entries : Dict) (r : List Char),
    parseJVal fuel cs = some (Json.obj entries, r) → dictNodup entries := by
  intro fuel
  cases fuel with
  | zero => intro cs entries r h; simp [parseJVal] at h
  | succ n =>
    intro cs entries r h
    simp only [parseJVal] at h
    try dsimp only at h
    repeat' split at h
    all_goals
      first
        | exact Option.noConfusion h
        | exact absurd h (parseJNum_not_obj _ _ _)
        | (obtain ⟨e, he, hnde⟩ := parseJObjRest_shape n _ _ _ _ (by simp [dictNodup]) h;
           injection he with he2; subst he2; exact hnde)
        | (obtain ⟨xs, hx⟩ := parseJArrRest_shape n _ _ _ _ h;
           exact Json.noConfusion hx)
        | (injection h with h1; injection h1 with h2 h3;
           first
             | exact Json.noConfusion h2
             | (injection h2 with h4; subst h4; simp [dictNodup]))

theorem jsonLoads_obj_nodup (s : String) (entries : Dict)
    (h : jsonLoads s = Except.ok (Json.obj entries)) : dictNodup entries := by
  unfold jsonLoads at h
  split at h
  · rename_i v rest heq
    split at h
    · injection h with h1
      exact parseJVal_obj_nodup _ _ _ _ (h1 ▸ heq)
    · exact Except.noConfusion h
  · exact Except.noConfusion h

theorem parse_llm_json_nodup (raw : String) (n : Int) :
    dictNodup (parse_llm_json raw n) := by
  unfold parse_llm_json
  split
  · simp [dictNodup]
  · split
    · rename_i entries heq
      exact dictNodup_dictSet _ _ _ (jsonLoads_obj_nodup _ _ heq)
    · simp only [parseGenericFallback, dictNodup, List.map_cons, List.map_nil]
      decide
    · split
      · split
        · rename_i entries heq
          exact dictNodup_dictSet _ _ _ (jsonLoads_obj_nodup _ _ heq)
        · simp only [parseDecodeFallback, dictNodup, List.map_cons, List.map_nil]
          decide
      · simp only [parseDecodeFallback, dictNodup, List.map_cons, List.map_nil]
        decide

theorem parse_llm_json_page_number (raw : String) (n : Int)
    (h : raw.isEmpty = false) :
    dictGet (parse_llm_json raw n) "page_number" = some (Json.num n) := by
  unfold parse_llm_json
  rw [if_neg (by simp [h])]
  split
  · exact dictGet_dictSet_self _ _ _
  · simp [parseGenericFallback, dictGet]
  · split
    · split
      · exact dictGet_dictSet_self _ _ _
      · simp [parseDecodeFallback, dictGet]
    · simp [parseDecodeFallback, dictGet]

theorem simplify_page_of_failed (env : Env) (vs : Option VS) (p : String)
    (n : Int) (a : String) (h : simplifyFailed env vs p n a = true) :
    simplify_page env vs p n a = generate_mock_response p n a := by
  unfold simplify_page
  by_cases hr : (simplifyRaw env vs p n a).isEmpty
  · simp [hr]
  · have h2 : (dictGet (parse_llm_json (simplifyRaw env vs p n a) n)
        "simplified_text").isSome = false := by
      unfold simplifyFailed at h
      simpa [hr] using h
    simp [hr, h2]

theorem call_perplexity_noOpenai (env : Env) (i : Nat) (p s : String)
    (h : env.hasOpenai = false) : call_perplexity env i p s = "" := by
  simp [call_perplexity, h]

theorem simplify_page_noModel (env : Env) (vs : Option VS) (p : String)
    (n : Int) (a : String) (h : env.hasOpenai = false) :
    simplify_page env vs p n a = generate_mock_response p n a := by
  have hr : simplifyRaw env vs p n a = "" := by
    simp [simplifyRaw, call_perplexity_noOpenai _ _ _ _ h]
  have he : ("" : String).isEmpty = true := rfl
  simp [simplify_page, hr, he]

theorem embRun_invariant (env : Env) :
    ∀ n : Nat, ((embRun env n).1.attempted = false → (embRun env n).2 = 0) ∧
      (embRun env n).2 ≤ 1 := by
  intro n
  induction n with
  | zero => simp [embRun, embInitState]
  | succ n ih =>
    obtain ⟨ih1, ih2⟩ := ih
    simp only [embRun]
    rcases hrun : embRun env n with ⟨st, cnt⟩
    rw [hrun] at ih1 ih2
    simp only at ih1 ih2 ⊢
    unfold get_embeddings
    rcases hemb : st.emb with _ | e
    · by_cases hatt : st.attempted
      · simp only [hatt, if_pos]
        constructor
        · intro hc; exact absurd hc (by simp)
        · simpa using ih2
      · have hcnt : cnt = 0 := ih1 (by simpa using hatt)
        simp only [hatt, if_neg]
        by_cases hlib : env.hasEmbLib
        · rcases hload : env.embLoad with e0 | msg
          · simp [hlib, hload, hcnt]
          · simp [hlib, hload, hcnt]
        · simp [hlib, hcnt]
    · simp only
      constructor
      · intro hc
        have h0 := ih1 hc
        simp [h0]
      · simpa using ih2

theorem ask_success_isSome (env : Env) (st : EmbState) (t q u : String) :
    (dictGet (ask_document env st t q u) "success").isSome = true := by
  unfold ask_document
  try dsimp only
  split
  · split
    · exact isSome_dictGet_dictSpread _ _ _ (by simp [dictGet])
    · split
      · simp [dictGet]
      · simp [askFallback, dictGet]
  · simp [askFallback, dictGet]

theorem summarize_success_isSome (env : Env) (t : String) :
    (dictGet (summarize_text env t) "success").isSome = true := by
  unfold summarize_text
  try dsimp only
  split
  · split
    · exact isSome_dictGet_dictSpread _ _ _ (by simp [dictGet])
    · split
      · simp [dictGet]
      · simp [summarizeErrorDict, dictGet]
      · simp [summarizeFallback, dictGet]
  · simp [summarizeFallback, dictGet]

theorem extract_success_isSome (env : Env) (st : EmbState) (t u : String) :
    (dictGet (extract_key_points env st t u) "success").isSome = true := by
  unfold extract_key_points
  try dsimp only
  split
  · split
    · exact isSome_dictGet_dictSpread _ _ _ (by simp [dictGet])
    · simp [extractFallback, dictGet]
  · simp [extractFallback, dictGet]

theorem ask_noModel (env : Env) (st : EmbState) (t q u : String)
    (h : env.hasOpenai = false) : ask_document env st t q u = askFallback t := by
  have hr : askRaw env st t q u = "" := by
    simp [askRaw, call_perplexity_noOpenai _ _ _ _ h]
  have he : ("" : String).isEmpty = true := rfl
  simp [ask_document, hr, he]

theorem summarize_noModel (env : Env) (t : String)
    (h : env.hasOpenai = false) : summarize_text env t = summarizeFallback t := by
  have hr : summarizeRaw env t = "" := by
    simp [summarizeRaw, call_perplexity_noOpenai _ _ _ _ h]
  have he : ("" : String).isEmpty = true := rfl
  simp [summarize_text, hr, he]

theorem extract_noModel (env : Env) (st : EmbState) (t u : String)
    (h : env.hasOpenai = false) : extract_key_points env st t u = extractFallback t := by
  have hr : extractRaw env st t u = "" := by
    simp [extractRaw, call_perplexity_noOpenai _ _ _ _ h]
  have he : ("" : String).isEmpty = true := rfl
  simp [extract_key_points, hr, he]

theorem mock_schema (p : String) (n : Int) (a : String) :
    (dictGet (generate_mock_response p n a) "page_number").isSome = true ∧
    (dictGet (generate_mock_response p n a) "title").isSome = true ∧
    (dictGet (generate_mock_response p n a) "simplified_text").isSome = true ∧
    (dictGet (generate_mock_response p n a) "image_prompt").isSome = true := by
  refine ⟨?_, ?_, ?_, ?_⟩ <;> simp [generate_mock_response, dictGet]

theorem sanitize_all_safe (uid : String) :
    (sanitize_user_id uid).data.all isSafeChar = true := by
  simp only [sanitize_user_id, List.all_map]
  rw [List.all_eq_true]
  intro c _
  simp only [Function.comp]
  by_cases h : isSafeChar c = true
  · rw [if_pos h]; exact h
  · rw [if_neg h]; decide

/-- Claim C10: audience-instruction lookup is case-insensitive — for every
audience string `a`, the lookup agrees with the lookup on the lowercase of
`a`, and any string whose lowercase form is none of executive, manager,
client, intern yields the manager instructions. -/
theorem C10_audience_case_insensitive :
    (∀ a : String, get_audience_instructions a = get_audience_instructions (pyLower a)) ∧
    (∀ a : String, pyLower a ≠ "executive" → pyLower a ≠ "manager" →
      pyLower a ≠ "client" → pyLower a ≠ "intern" →
      get_audience_instructions a = managerInstr) := by
  constructor
  · intro a
    unfold get_audience_instructions
    rw [pyLower_idem]
  · intro a h1 h2 h3 h4
    simp [get_audience_instructions, h1, h2, h3, h4]

/-- Witness for C10 at concrete audiences. -/
theorem C10_audience_case_insensitive_witness :
    get_audience_instructions "EXECUTIVE" = get_audience_instructions (pyLower "EXECUTIVE") ∧
    get_audience_instructions "Boss" = managerInstr :=
  ⟨C10_audience_case_insensitive.1 "EXECUTIVE",
   C10_audience_case_insensitive.2 "Boss" (by decide) (by decide) (by decide) (by decide)⟩

/-- Counterexample for C6 as stated: sanitizing the empty string yields the
empty string, which does not match `[A-Za-z0-9_-]+` (the `+` requires at
least one character). -/
theorem C6_counterexample : matchesSafePlus (sanitize_user_id "") = false := rfl

/-- Claim C6 (amended): the sanitization maps every input to a string of
characters from `[A-Za-z0-9_-]` (each character outside the class replaced
with an underscore, positions preserved), and every non-empty input to a
string matching `[A-Za-z0-9_-]+`. -/
theorem C6_sanitize_character_class :
    (∀ uid : String, (sanitize_user_id uid).data.all isSafeChar = true) ∧
    (∀ uid : String, uid ≠ "" → matchesSafePlus (sanitize_user_id uid) = true) ∧
    (∀ (uid : String) (i : Nat) (c : Char), uid.data[i]? = some c →
      (sanitize_user_id uid).data[i]? = some (if isSafeChar c then c else '_')) := by
  refine ⟨sanitize_all_safe, ?_, ?_⟩
  · intro uid h
    have hd : uid.data ≠ [] := by
      intro hh
      apply h
      apply String.ext
      simpa using hh
    unfold matchesSafePlus
    rw [Bool.and_eq_true]
    constructor
    · simp [sanitize_user_id, List.isEmpty_iff, hd]
    · exact sanitize_all_safe uid
  · intro uid i c hc
    simp [sanitize_user_id, List.getElem?_map, hc]

/-- Witness for C6 at a concrete hostile user id. -/
theorem C6_sanitize_character_class_witness :
    ("../etc" : String) ≠ "" ∧ matchesSafePlus (sanitize_user_id "../etc") = true :=
  ⟨by decide, C6_sanitize_character_class.2.1 "../etc" (by decide)⟩

/-- Claim C5: embedding-model loading is attempted at most once per process
lifetime — over any number of `get_embeddings` calls the constructor runs
at most once, and from a failed-attempt state every further call returns
None without a new attempt (`Failed` is terminal). -/
theorem C5_embedding_single_attempt :
    (∀ (env : Env) (n : Nat), (embRun env n).2 ≤ 1) ∧
    (∀ (env : Env) (st : EmbState), st.attempted = true → st.emb = none →
      get_embeddings env st = { result := none, state := st, loadAttempted := false }) := by
  constructor
  · intro env n
    exact (embRun_invariant env n).2
  · intro env st h1 h2
    simp [get_embeddings, h2, h1]

/-- Witness for C5: five failing calls attempt at most one load, and the
failed state is terminal. -/
theorem C5_embedding_single_attempt_witness :
    (embRun envNoDeps 5).2 ≤ 1 ∧
    get_embeddings envNoDeps { emb := none, attempted := true } =
      { result := none, state := { emb := none, attempted := true }, loadAttempted := false } :=
  ⟨C5_embedding_single_attempt.1 envNoDeps 5,
   C5_embedding_single_attempt.2 envNoDeps { emb := none, attempted := true } rfl rfl⟩

/-- Counterexample for C2 as stated: on the empty string the parser
returns the empty dict, which contains none of the required keys. -/
theorem C2_counterexample :
    parse_llm_json "" 1 = [] ∧ dictGet (parse_llm_json "" 1) "title" = none :=
  ⟨rfl, rfl⟩

/-- Claim C2 (amended): the parser is total, but the minimum keys hold
only off the successful-object paths — the empty string yields the empty
dict; every non-empty input yields a dict containing `page_number`; and
every non-empty input on which no JSON object parse succeeds (neither on
the fence-stripped text nor on the first brace span) yields a dict with
all of `page_number`, `title`, `simplified_text`, `image_prompt`. -/
theorem C2_parser_required_keys :
    (∀ n : Int, parse_llm_json "" n = []) ∧
    (∀ (raw : String) (n : Int), raw.isEmpty = false →
      (dictGet (parse_llm_json raw n) "page_number").isSome = true) ∧
    (∀ (raw : String) (n : Int), raw.isEmpty = false → parseSucceededAsObj raw = false →
      (dictGet (parse_llm_json raw n) "page_number").isSome = true ∧
      (dictGet (parse_llm_json raw n) "title").isSome = true ∧
      (dictGet (parse_llm_json raw n) "simplified_text").isSome = true ∧
      (dictGet (parse_llm_json raw n) "image_prompt").isSome = true) := by
  refine ⟨fun n => rfl, ?_, ?_⟩
  · intro raw n h
    simp [parse_llm_json_page_number raw n h]
  · intro raw n h hp
    unfold parse_llm_json
    rw [if_neg (by simp [h])]
    split
    · rename_i entries heq
      exfalso
      simp [parseSucceededAsObj, heq] at hp
    · refine ⟨?_, ?_, ?_, ?_⟩ <;> simp [parseGenericFallback, dictGet]
    · rename_i err heqE
      split
      · rename_i span hspan
        split
        · rename_i entries heq2
          exfalso
          simp [parseSucceededAsObj, heqE, hspan, heq2] at hp
        · refine ⟨?_, ?_, ?_, ?_⟩ <;> simp [parseDecodeFallback, dictGet]
      · refine ⟨?_, ?_, ?_, ?_⟩ <;> simp [parseDecodeFallback, dictGet]

/-- Witness for C2 at a concrete garbage input. -/
theorem C2_parser_required_keys_witness :
    ("garbage model output" : String).isEmpty = false ∧
    parseSucceededAsObj "garbage model output" = false ∧
    (dictGet (parse_llm_json "garbage model output" 2) "title").isSome = true :=
  ⟨rfl, rfl, (C2_parser_required_keys.2.2 "garbage model output" 2 rfl rfl).2.1⟩

/-- Counterexample for C4 as stated: the result of scenario 3 is not
equal (as a dict) to the four-field object the claim names, because the
parser injects `page_number`. -/
theorem C4_counterexample :
    ¬ (∀ k : String, dictGet (summarize_text envC4 "doc") k = dictGet c4Claimed k) := by
  intro h
  have h1 := h "page_number"
  have h2 : dictGet (summarize_text envC4 "doc") "page_number" = some (Json.num 1) := rfl
  have h3 : dictGet c4Claimed "page_number" = none := rfl
  rw [h2, h3] at h1
  exact Option.noConfusion h1

set_option maxHeartbeats 2000000 in
/-- Claim C4 (amended): with the model returning the fenced JSON of
scenario 3, `summarize_text` returns exactly
success=true, summary="X", word_count=1, key_topics=[] plus the injected
page_number=1 (for every input text). -/
theorem C4_summarize_scenario3 (t : String) :
    summarize_text envC4 t =
      [("success", Json.bool true), ("summary", Json.str "X"),
       ("word_count", Json.num 1), ("key_topics", Json.arr []),
       ("page_number", Json.num 1)] := rfl

/-- Claim C7: when the model is unavailable (the model call yields the
empty string) and no exception occurs, `ask_document` returns
success=true, confidence="low", an answer containing a prefix of the
document text, and a relevant excerpt that is the raw 200-character
document prefix. -/
theorem C7_ask_degraded (env : Env) (st : EmbState) (t q u : String)
    (h : askRaw env st t q u = "") :
    dictGet (ask_document env st t q u) "success" = some (Json.bool true) ∧
    dictGet (ask_document env st t q u) "confidence" = some (Json.str "low") ∧
    (∃ pre tailDoc lead tailAns,
      t = pre ++ tailDoc ∧
      dictGet (ask_document env st t q u) "answer" =
        some (Json.str (lead ++ pre ++ tailAns))) ∧
    dictGet (ask_document env st t q u) "relevant_excerpt" =
      some (Json.str (pyTake t 200)) := by
  have he : ("" : String).isEmpty = true := rfl
  have hfb : ask_document env st t q u = askFallback t := by
    simp [ask_document, h, he]
  rw [hfb]
  refine ⟨by simp [askFallback, dictGet], by simp [askFallback, dictGet], ?_,
    by simp [askFallback, dictGet]⟩
  refine ⟨pyTake t 500, pyDrop t 500,
    "Based on the document, here is what I found related to your question:\n\n",
    "...\n\n(Note: AI service returned no structured answer, showing document excerpt instead.)",
    (pyTake_append_pyDrop t 500).symm, ?_⟩
  simp [askFallback, dictGet]

/-- Witness for C7 with the model dependency missing. -/
theorem C7_ask_degraded_witness :
    askRaw envNoDeps embInitState "Document body." "What?" "u" = "" ∧
    dictGet (ask_document envNoDeps embInitState "Document body." "What?" "u") "confidence" =
      some (Json.str "low") :=
  ⟨rfl, (C7_ask_degraded envNoDeps embInitState "Document body." "What?" "u" rfl).2.1⟩

/-- Claim C8: on every non-empty raw input the parser maps `page_number`
to exactly the supplied page number (overwriting any model-provided
value); consequently the Ask, Summarize, and Extract results built by
spreading a parsed model object carry a `page_number` field equal to 1
beyond their documented schema. -/
theorem C8_page_number_injected :
    (∀ (raw : String) (n : Int), raw.isEmpty = false →
      dictGet (parse_llm_json raw n) "page_number" = some (Json.num n)) ∧
    (∀ (env : Env) (st : EmbState) (t q u : String),
      (askRaw env st t q u).isEmpty = false →
      (dictGet (parse_llm_json (askRaw env st t q u) 1) "answer").isSome = true →
      dictGet (ask_document env st t q u) "page_number" = some (Json.num 1)) ∧
    (∀ (env : Env) (t : String),
      (summarizeRaw env t).isEmpty = false →
      (dictGet (parse_llm_json (summarizeRaw env t) 1) "summary").isSome = true →
      dictGet (summarize_text env t) "page_number" = some (Json.num 1)) ∧
    (∀ (env : Env) (st : EmbState) (t u : String),
      (extractRaw env st t u).isEmpty = false →
      (dictGet (parse_llm_json (extractRaw env st t u) 1) "key_points").isSome = true →
      dictGet (extract_key_points env st t u) "page_number" = some (Json.num 1)) := by
  refine ⟨parse_llm_json_page_number, ?_, ?_, ?_⟩
  · intro env st t q u hr hans
    have hsp : ask_document env st t q u =
        dictSpread [("success", Json.bool true)] (parse_llm_json (askRaw env st t q u) 1) := by
      unfold ask_document
      dsimp only
      rw [if_pos (by simp [hr]), if_pos hans]
    rw [hsp]
    exact dictGet_dictSpread_of_mem _ _ _ _ (parse_llm_json_nodup _ _)
      (parse_llm_json_page_number _ _ hr)
  · intro env t hr hsum
    have hsp : summarize_text env t =
        dictSpread [("success", Json.bool true)] (parse_llm_json (summarizeRaw env t) 1) := by
      unfold summarize_text
      dsimp only
      rw [if_pos (by simp [hr]), if_pos hsum]
    rw [hsp]
    exact dictGet_dictSpread_of_mem _ _ _ _ (parse_llm_json_nodup _ _)
      (parse_llm_json_page_number _ _ hr)
  · intro env st t u hr hkp
    have hsp : extract_key_points env st t u =
        dictSpread [("success", Json.bool true)] (parse_llm_json (extractRaw env st t u) 1) := by
      unfold extract_key_points
      dsimp only
      rw [if_pos (by simp [hr]), if_pos hkp]
    rw [hsp]
    exact dictGet_dictSpread_of_mem _ _ _ _ (parse_llm_json_nodup _ _)
      (parse_llm_json_page_number _ _ hr)

set_option maxHeartbeats 2000000 in
/-- Witness for C8 on concrete model outputs for all three single-call
flows. -/
theorem C8_page_number_injected_witness :
    dictGet (parse_llm_json "\x7b\"answer\":\"hi\"\x7d" 7) "page_number" = some (Json.num 7) ∧
    dictGet (ask_document envAnswerOnly embInitState "d" "q" "u") "page_number" =
      some (Json.num 1) ∧
    dictGet (summarize_text envC4 "d") "page_number" = some (Json.num 1) ∧
    dictGet (extract_key_points envPointsOnly embInitState "d" "u") "page_number" =
      some (Json.num 1) :=
  ⟨C8_page_number_injected.1 "\x7b\"answer\":\"hi\"\x7d" 7 rfl,
   C8_page_number_injected.2.1 envAnswerOnly embInitState "d" "q" "u" rfl rfl,
   C8_page_number_injected.2.2.1 envC4 "d" rfl rfl,
   C8_page_number_injected.2.2.2 envPointsOnly embInitState "d" "u" rfl rfl⟩

theorem summarizeFallback_word_count (t : String) :
    ∃ s, dictGet (summarizeFallback t) "summary" = some (Json.str s) ∧
      dictGet (summarizeFallback t) "word_count" =
        some (Json.num (Int.ofNat (pySplitWs s).length)) :=
  ⟨summarizeFallbackText t, by simp [summarizeFallback, dictGet],
    by simp [summarizeFallback, dictGet]⟩

/-- Claim C9: on both degraded Summarize paths — the substituted string
`simplified_text` path and the extractive-sentence fallback path — the
`word_count` field equals the number of whitespace-separated words of the
returned `summary` field. -/
theorem C9_summarize_word_count :
    (∀ (env : Env) (t s : String),
      (summarizeRaw env t).isEmpty = false →
      dictGet (parse_llm_json (summarizeRaw env t) 1) "summary" = none →
      dictGet (parse_llm_json (summarizeRaw env t) 1) "simplified_text" =
        some (Json.str s) →
      dictGet (summarize_text env t) "summary" = some (Json.str s) ∧
      dictGet (summarize_text env t) "word_count" =
        some (Json.num (Int.ofNat (pySplitWs s).length))) ∧
    (∀ (env : Env) (t : String),
      (summarizeRaw env t).isEmpty = true ∨
        (dictGet (parse_llm_json (summarizeRaw env t) 1) "summary" = none ∧
         dictGet (parse_llm_json (summarizeRaw env t) 1) "simplified_text" = none) →
      ∃ s, dictGet (summarize_text env t) "summary" = some (Json.str s) ∧
        dictGet (summarize_text env t) "word_count" =
          some (Json.num (Int.ofNat (pySplitWs s).length))) := by
  constructor
  · intro env t s hr hnosum hsimp
    have hred : summarize_text env t =
        [("success", Json.bool true), ("summary", Json.str s),
         ("word_count", Json.num (Int.ofNat (pySplitWs s).length)),
         ("key_topics", Json.arr [])] := by
      unfold summarize_text
      dsimp only
      rw [if_pos (by simp [hr]), if_neg (by simp [hnosum]), hsimp]
    rw [hred]
    exact ⟨by simp [dictGet], by simp [dictGet]⟩
  · intro env t hcase
    by_cases hr : (summarizeRaw env t).isEmpty
    · have hred : summarize_text env t = summarizeFallback t := by
        unfold summarize_text
        dsimp only
        rw [if_neg (by simp [hr])]
      rw [hred]
      exact summarizeFallback_word_count t
    · rcases hcase with hempty | ⟨hnosum, hnosimp⟩
      · exact absurd hempty hr
      · have hred : summarize_text env t = summarizeFallback t := by
          unfold summarize_text
          dsimp only
          rw [if_pos (by simp_all), if_neg (by simp [hnosum]), hnosimp]
        rw [hred]
        exact summarizeFallback_word_count t

/-- Witness for C9 on a concrete simplified_text substitution and a
concrete extractive fallback. -/
theorem C9_summarize_word_count_witness :
    (dictGet (summarize_text envSimplifiedOnly "d") "summary" =
        some (Json.str "hello world") ∧
      dictGet (summarize_text envSimplifiedOnly "d") "word_count" =
        some (Json.num 2)) ∧
    (∃ s, dictGet (summarize_text envNoDeps "One decent sentence here.") "summary" =
        some (Json.str s) ∧
      dictGet (summarize_text envNoDeps "One decent sentence here.") "word_count" =
        some (Json.num (Int.ofNat (pySplitWs s).length))) :=
  ⟨C9_summarize_word_count.1 envSimplifiedOnly "d" "hello world" rfl rfl rfl,
   C9_summarize_word_count.2 envNoDeps "One decent sentence here." (Or.inl rfl)⟩

/-- Counterexample for C1 as stated: the Simplify flow result carries no
`success` field at all, even in the total-failure configuration. -/
theorem C1_counterexample :
    dictGet (process_document envNoDeps embInitState [0]
      "Hello world. This is a long enough test sentence." "manager" "u") "success" = none := by
  have hne : ("pages" : String) ≠ "success" := by decide
  simp [process_document, dictGet, hne]

/-- Claim C1 (amended): ask, summarize and extract always carry a
`success` key and populate their full schema in total failure with
success=true; the process (Simplify) flow carries no `success` field but
returns a pages list whose every page populates the SimplifiedPage schema
in total failure; all four flows are total functions of the environment
(no exception propagates). -/
theorem C1_orchestrator_boundary :
    (∀ (env : Env) (st : EmbState) (t q u : String),
      (dictGet (ask_document env st t q u) "success").isSome = true) ∧
    (∀ (env : Env) (t : String),
      (dictGet (summarize_text env t) "success").isSome = true) ∧
    (∀ (env : Env) (st : EmbState) (t u : String),
      (dictGet (extract_key_points env st t u) "success").isSome = true) ∧
    (∀ (env : Env) (st : EmbState) (order : List Nat) (t a u : String),
      dictGet (process_document env st order t a u) "success" = none) ∧
    (∀ (env : Env) (st : EmbState) (t q u : String), env.hasOpenai = false →
      ask_document env st t q u = askFallback t ∧
      dictGet (askFallback t) "success" = some (Json.bool true) ∧
      (dictGet (askFallback t) "answer").isSome = true ∧
      dictGet (askFallback t) "confidence" = some (Json.str "low") ∧
      (dictGet (askFallback t) "relevant_excerpt").isSome = true) ∧
    (∀ (env : Env) (t : String), env.hasOpenai = false →
      summarize_text env t = summarizeFallback t ∧
      dictGet (summarizeFallback t) "success" = some (Json.bool true) ∧
      (dictGet (summarizeFallback t) "summary").isSome = true ∧
      (dictGet (summarizeFallback t) "word_count").isSome = true ∧
      (dictGet (summarizeFallback t) "key_topics").isSome = true) ∧
    (∀ (env : Env) (st : EmbState) (t u : String), env.hasOpenai = false →
      extract_key_points env st t u = extractFallback t ∧
      dictGet (extractFallback t) "success" = some (Json.bool true) ∧
      (dictGet (extractFallback t) "key_points").isSome = true ∧
      (dictGet (extractFallback t) "overall_theme").isSome = true ∧
      (dictGet (extractFallback t) "action_items").isSome = true) ∧
    (∀ (env : Env) (st : EmbState) (order : List Nat) (t a u : String),
      env.hasOpenai = false →
      ∃ rs : List Dict,
        process_document env st order t a u = [("pages", Json.arr (rs.map Json.obj))] ∧
        ∀ d ∈ rs, (dictGet d "page_number").isSome = true ∧
          (dictGet d "title").isSome = true ∧
          (dictGet d "simplified_text").isSome = true ∧
          (dictGet d "image_prompt").isSome = true) := by
  have hne : ("pages" : String) ≠ "success" := by decide
  refine ⟨ask_success_isSome, summarize_success_isSome, extract_success_isSome,
    ?_, ?_, ?_, ?_, ?_⟩
  · intro env st order t a u
    simp [process_document, dictGet, hne]
  · intro env st t q u h
    exact ⟨ask_noModel env st t q u h, by simp [askFallback, dictGet],
      by simp [askFallback, dictGet], by simp [askFallback, dictGet],
      by simp [askFallback, dictGet]⟩
  · intro env t h
    exact ⟨summarize_noModel env t h, by simp [summarizeFallback, dictGet],
      by simp [summarizeFallback, dictGet], by simp [summarizeFallback, dictGet],
      by simp [summarizeFallback, dictGet]⟩
  · intro env st t u h
    exact ⟨extract_noModel env st t u h, by simp [extractFallback, dictGet],
      by simp [extractFallback, dictGet], by simp [extractFallback, dictGet],
      by simp [extractFallback, dictGet]⟩
  · intro env st order t a u h
    refine ⟨handleGatherResults (segment_pages t 3000) a
      (asyncGather (Except.error "unawaited") (processTasks env st t a u) order), rfl, ?_⟩
    intro d hd
    obtain ⟨i, r, hr, rfl⟩ := mem_listMapIdx _ _ _ _ hd
    cases r with
    | error e => exact mock_schema _ _ _
    | ok dd =>
      rcases mem_asyncGather _ _ _ _ (List.getElem?_mem hr) with hdf | htask
      · exact absurd hdf (by simp)
      · obtain ⟨j, page, hp, heq⟩ := mem_listMapIdx _ _ _ _ htask
        injection heq with heq2
        have hdd : dd = generate_mock_response page (Int.ofNat (0 + j) + 1) a := by
          rw [heq2]
          exact simplify_page_noModel _ _ _ _ _ h
        rw [hdd]
        exact mock_schema _ _ _

/-- Witness for C1 in the total-failure configuration. -/
theorem C1_orchestrator_boundary_witness :
    (dictGet (ask_document envNoDeps embInitState "Doc body." "Q?" "u") "success").isSome = true ∧
    ask_document envNoDeps embInitState "Doc body." "Q?" "u" = askFallback "Doc body." ∧
    summarize_text envNoDeps "Doc body." = summarizeFallback "Doc body." ∧
    extract_key_points envNoDeps embInitState "Doc body." "u" = extractFallback "Doc body." ∧
    (∃ rs : List Dict,
      process_document envNoDeps embInitState [0] "Doc body." "manager" "u" =
        [("pages", Json.arr (rs.map Json.obj))] ∧
      ∀ d ∈ rs, (dictGet d "page_number").isSome = true ∧
        (dictGet d "title").isSome = true ∧
        (dictGet d "simplified_text").isSome = true ∧
        (dictGet d "image_prompt").isSome = true) :=
  ⟨C1_orchestrator_boundary.1 envNoDeps embInitState "Doc body." "Q?" "u",
   (C1_orchestrator_boundary.2.2.2.2.1 envNoDeps embInitState "Doc body." "Q?" "u" rfl).1,
   (C1_orchestrator_boundary.2.2.2.2.2.1 envNoDeps "Doc body." rfl).1,
   (C1_orchestrator_boundary.2.2.2.2.2.2.1 envNoDeps embInitState "Doc body." "u" rfl).1,
   C1_orchestrator_boundary.2.2.2.2.2.2.2 envNoDeps embInitState [0] "Doc body." "manager" "u" rfl⟩

/-- Claim C3: for a document segmenting into N pages, the process flow
returns exactly N page results in original page order for every
completion schedule that is a permutation of the page indices; a page
whose model path fails contributes exactly its mock response; and an
exceptional per-page outcome in the gather result is replaced by that
page's mock response rather than failing the batch. -/
theorem C3_process_order_and_fallback :
    (∀ (env : Env) (st : EmbState) (t a u : String) (order : List Nat),
      order.Perm (List.range (segment_pages t 3000).length) →
      ∃ rs : List Dict,
        process_document env st order t a u = [("pages", Json.arr (rs.map Json.obj))] ∧
        rs.length = (segment_pages t 3000).length ∧
        (∀ (i : Nat) (page : String), (segment_pages t 3000)[i]? = some page →
          rs[i]? = some (simplify_page env (build_vector_store env t u st).1
            page (Int.ofNat i + 1) a)) ∧
        (∀ (i : Nat) (page : String), (segment_pages t 3000)[i]? = some page →
          simplifyFailed env (build_vector_store env t u st).1
            page (Int.ofNat i + 1) a = true →
          rs[i]? = some (generate_mock_response page (Int.ofNat i + 1) a))) ∧
    (∀ (pages : List String) (a : String) (outcomes : List (Except PyErr Dict))
      (i : Nat) (e : PyErr),
      outcomes[i]? = some (Except.error e) →
      (handleGatherResults pages a outcomes)[i]? =
        some (generate_mock_response (pages.getD i "") (Int.ofNat i + 1) a)) := by
  constructor
  · intro env st t a u order hperm
    have hlen : (processTasks env st t a u).length = (segment_pages t 3000).length :=
      length_listMapIdx _ _ _
    have hg : asyncGather (Except.error "unawaited") (processTasks env st t a u) order =
        processTasks env st t a u := by
      apply asyncGather_perm
      rw [hlen]
      exact hperm
    refine ⟨handleGatherResults (segment_pages t 3000) a
      (asyncGather (Except.error "unawaited") (processTasks env st t a u) order),
      rfl, ?_, ?_, ?_⟩
    · rw [hg]
      unfold handleGatherResults
      rw [length_listMapIdx, hlen]
    · intro i page hp
      rw [hg]
      unfold handleGatherResults processTasks
      rw [getElem?_listMapIdx]
      rw [getElem?_listMapIdx]
      rw [hp]
      simp
    · intro i page hp hfail
      rw [hg]
      unfold handleGatherResults processTasks
      rw [getElem?_listMapIdx]
      rw [getElem?_listMapIdx]
      rw [hp]
      simp
      exact simplify_page_of_failed _ _ _ _ _ hfail
  · intro pages a outcomes i e hout
    unfold handleGatherResults
    rw [getElem?_listMapIdx, hout]
    simp

/-- Witness for C3 at a one-page document with the schedule [0] and a
failing model path, plus a concrete exceptional gather outcome. -/
theorem C3_process_order_and_fallback_witness :
    (∃ rs : List Dict,
      process_document envNoDeps embInitState [0]
        "A single page document. With two sentences." "manager" "u" =
        [("pages", Json.arr (rs.map Json.obj))] ∧
      rs.length = (segment_pages "A single page document. With two sentences." 3000).length ∧
      (∀ (i : Nat) (page : String),
        (segment_pages "A single page document. With two sentences." 3000)[i]? = some page →
        rs[i]? = some (simplify_page envNoDeps
          (build_vector_store envNoDeps "A single page document. With two sentences." "u"
            embInitState).1 page (Int.ofNat i + 1) "manager")) ∧
      (∀ (i : Nat) (page : String),
        (segment_pages "A single page document. With two sentences." 3000)[i]? = some page →
        simplifyFailed envNoDeps
          (build_vector_store envNoDeps "A single page document. With two sentences." "u"
            embInitState).1 page (Int.ofNat i + 1) "manager" = true →
        rs[i]? = some (generate_mock_response page (Int.ofNat i + 1) "manager"))) ∧
    (handleGatherResults ["p1"] "manager" [Except.error "boom"])[0]? =
      some (generate_mock_response "p1" 1 "manager") :=
  ⟨C3_process_order_and_fallback.1 envNoDeps embInitState
      "A single page document. With two sentences." "manager" "u" [0] (by decide),
   C3_process_order_and_fallback.2 ["p1"] "manager" [Except.error "boom"] 0 "boom" rfl⟩
